import Mathlib

/-!
Verification of the Epoch Zero simulation core (`mothe_simulation_core.py`,
driven by `streamlit_app.py`).

Embedding conventions:
* Python floats are modelled as exact rationals (`ℚ`).
* Randomness is modelled by an explicit per-tick oracle (`TickDraws`): every
  random draw the Python code makes during one tick is a field of the oracle,
  together with a validity predicate recording the support of the distribution
  it is drawn from (`random.uniform(a, b)` gives a value in `[a, b]`, etc.).
* The Python state dict is modelled by `StateDict` (each key optional, `none`
  meaning the key is absent) and `SimState` (all keys present, the shape the
  lazy-initialisation block of `run_simulation_step` establishes).
* `datetime` values are only ever consumed through `strftime('%H:%M:%S')`,
  so the timestamp is passed as an already formatted string `ts`.
* Fallible operations (dict key reads, integer/rational division by a possibly
  zero region count) are additionally modelled in `Except` by
  `run_simulation_stepE`; the pure functions use total `ℚ` division.
-/

namespace EpochZero

/-- Python module constant `SIM_INTERVAL_SECONDS = 1`. -/
def SIM_INTERVAL_SECONDS : ℚ := 1

/-- Python module constant `GRID_NODES`. -/
def GRID_NODES : List String := ["RegionAlpha", "RegionBeta", "RegionGamma"]

/-- Fixed-point decimal formatting, modelling Python f-string `{x:.prec f}`
(tie-breaking of the final digit is immaterial to every claim). -/
def fmtFixed (prec : ℕ) (q : ℚ) : String :=
  let scaled : ℤ := round (q * (10 : ℚ) ^ prec)
  let sign := if scaled < 0 then "-" else ""
  let n := scaled.natAbs
  let ip := n / 10 ^ prec
  let fp := n % 10 ^ prec
  let fs := toString fp
  sign ++ toString ip ++ "." ++ String.mk (List.replicate (prec - fs.length) '0') ++ fs

/-- Python `round(x, 6)`: rounding to six decimal places. -/
def round6 (q : ℚ) : ℚ := ((round (q * 1000000) : ℤ) : ℚ) / 1000000

/-- Python `round(x, 2)`: rounding to two decimal places. -/
def round2 (q : ℚ) : ℚ := ((round (q * 100) : ℤ) : ℚ) / 100

/-- Python class `SolarNodeController` (fields set in `__init__`). -/
structure SolarNodeController where
  node_name : String
  irradiance : ℚ
  temperature : ℚ
  panel_health : ℚ
  output_power_mwh : ℚ
deriving Repr, DecidableEq

/-- `SolarNodeController.__init__(node_name)`. -/
def SolarNodeController.init (name : String) : SolarNodeController :=
  { node_name := name, irradiance := 0, temperature := 25, panel_health := 100,
    output_power_mwh := 0 }

/-- The random draws consumed by one `SolarNodeController.read_sensors` call. -/
structure SolarDraw where
  irr : ℚ
  temp : ℚ
  drop : ℚ
deriving Repr, DecidableEq

/-- Support of the distributions in `read_sensors`:
`random.uniform(800, 1200)`, `random.uniform(15, 45)`, `random.uniform(0, 0.01)`. -/
def SolarDraw.valid (d : SolarDraw) : Prop :=
  800 ≤ d.irr ∧ d.irr ≤ 1200 ∧ 15 ≤ d.temp ∧ d.temp ≤ 45 ∧ 0 ≤ d.drop ∧ d.drop ≤ 1 / 100

instance (d : SolarDraw) : Decidable d.valid := by
  unfold SolarDraw.valid
  infer_instance

/-- `SolarNodeController.read_sensors`. -/
def SolarNodeController.read_sensors (c : SolarNodeController) (d : SolarDraw) :
    SolarNodeController :=
  { c with irradiance := d.irr, temperature := d.temp,
           panel_health := max 80 (c.panel_health - d.drop) }

/-- `SolarNodeController.calibrate_output` (the returned value is stored in
`output_power_mwh`; `0.3 = 3/10`, `0.01 = 1/100`, `0.75 = 3/4`). -/
def SolarNodeController.calibrate_output (c : SolarNodeController) : SolarNodeController :=
  let base_power := c.irradiance / 1000 * (3 / 10)
  let health_factor := c.panel_health / 100
  let temp_factor := max (3 / 4) (1 - (c.temperature - 25) * (1 / 100))
  { c with output_power_mwh :=
      base_power * health_factor * temp_factor * (SIM_INTERVAL_SECONDS / 3600) }

/-- `SolarNodeController.generate_energy`: `read_sensors` then `calibrate_output`,
returning the updated controller together with the returned output. -/
def SolarNodeController.generate_energy (c : SolarNodeController) (d : SolarDraw) :
    SolarNodeController × ℚ :=
  let c1 := (c.read_sensors d).calibrate_output
  (c1, c1.output_power_mwh)

/-- Python class `UniversalDistributionNode`. -/
structure UniversalDistributionNode where
  region_name : String
  energy_balance : ℚ
deriving Repr, DecidableEq

/-- `UniversalDistributionNode.__init__(region_name)`. -/
def UniversalDistributionNode.init (name : String) : UniversalDistributionNode :=
  { region_name := name, energy_balance := 0 }

/-- `UniversalDistributionNode.balance_and_distribute(amount)`:
`self.energy_balance += amount / len(GRID_NODES)` (the region list `gn` is the
module-level `GRID_NODES` constant, taken as a parameter). -/
def UniversalDistributionNode.balance_and_distribute (gn : List String) (amount : ℚ)
    (n : UniversalDistributionNode) : UniversalDistributionNode :=
  { n with energy_balance := n.energy_balance + amount / (gn.length : ℚ) }

/-- Fallible rendering of `balance_and_distribute`: Python raises
`ZeroDivisionError` when `len(GRID_NODES) == 0`. -/
def UniversalDistributionNode.balance_and_distributeE (gn : List String) (amount : ℚ)
    (n : UniversalDistributionNode) : Except String UniversalDistributionNode :=
  if gn.length = 0 then Except.error "ZeroDivisionError: division by zero"
  else Except.ok (n.balance_and_distribute gn amount)

/-- Python class `AISovereigntyProtocol` (stateless). -/
structure AISovereigntyProtocol where
deriving Repr, DecidableEq

/-- `AISovereigntyProtocol.monitor_grid_integrity(threat_level)`:
returns `True` iff `threat_level > 8500` (`self` is unused by the source). -/
def AISovereigntyProtocol.monitor_grid_integrity (threat_level : ℚ) : Bool :=
  decide (8500 < threat_level)

/-- `ai_boring_search_for_gold(minutes)`: `round(random.uniform(0, 0.002) * minutes, 6)`;
`u` is the uniform draw. -/
def ai_boring_search_for_gold (u : ℚ) (minutes : ℚ) : ℚ :=
  round6 (u * minutes)

/-- `ai_boring_search_for_oil(minutes)`: `round(random.uniform(0, 0.003) * minutes, 6)`;
`u` is the uniform draw. -/
def ai_boring_search_for_oil (u : ℚ) (minutes : ℚ) : ℚ :=
  round6 (u * minutes)

/-- `quiet_nuclear_protocol_scan(minutes)`: `random.choice([0, 1])`; the Boolean
`choiceDraw` selects which element is picked (the `minutes` argument is unused
by the source body). -/
def quiet_nuclear_protocol_scan (choiceDraw : Bool) (_minutes : ℚ) : ℤ :=
  if choiceDraw then 1 else 0

/-- The list `["antivirals", "antibiotics", "vaccines"]` in `simulate_supply_chain`. -/
def medsList : List String := ["antivirals", "antibiotics", "vaccines"]

/-- The findings list in `simulate_orbital_scan`. -/
def findingsList : List String :=
  ["Gold Vein Located", "Tectonic Stress Point Detected", "Uranium Trace Signature",
   "No Anomaly"]

/-- Draws consumed by one `simulate_supply_chain` call:
`random.randint(10000, 20000)` and `random.choice` of `medsList`. -/
structure SupplyDraw where
  water_units : ℤ
  meds : String
deriving Repr, DecidableEq

/-- Support of the `simulate_supply_chain` draws. -/
def SupplyDraw.valid (d : SupplyDraw) : Prop :=
  10000 ≤ d.water_units ∧ d.water_units ≤ 20000 ∧ d.meds ∈ medsList

instance (d : SupplyDraw) : Decidable d.valid := by
  unfold SupplyDraw.valid
  infer_instance

/-- `simulate_supply_chain(region)`. -/
def simulate_supply_chain (d : SupplyDraw) (region : String) : String :=
  "[SUPPLY_CHAIN] Delivered " ++ toString d.water_units ++ "L water + " ++ d.meds
    ++ " to " ++ region

/-- Draw consumed by one `simulate_orbital_scan` call: `random.choice` of
`findingsList`. -/
structure OrbitalDraw where
  findings : String
deriving Repr, DecidableEq

/-- Support of the `simulate_orbital_scan` draw. -/
def OrbitalDraw.valid (d : OrbitalDraw) : Prop := d.findings ∈ findingsList

instance (d : OrbitalDraw) : Decidable d.valid := by
  unfold OrbitalDraw.valid
  infer_instance

/-- `simulate_orbital_scan(region)`. -/
def simulate_orbital_scan (d : OrbitalDraw) (region : String) : String :=
  "[ORBITAL SCAN] Satellite scan of " ++ region ++ ": " ++ d.findings

/-- Draws consumed by one `register_sovereign_id` call:
`random.randint(1000, 9999)` and `random.uniform(0.5, 1.0)`. -/
structure IdDraw where
  seed_num : ℤ
  rep_u : ℚ
deriving Repr, DecidableEq

/-- Support of the `register_sovereign_id` draws. -/
def IdDraw.valid (d : IdDraw) : Prop :=
  1000 ≤ d.seed_num ∧ d.seed_num ≤ 9999 ∧ 1 / 2 ≤ d.rep_u ∧ d.rep_u ≤ 1

instance (d : IdDraw) : Decidable d.valid := by
  unfold IdDraw.valid
  infer_instance

/-- `register_sovereign_id(region)`. -/
def register_sovereign_id (d : IdDraw) (region : String) : String :=
  let seed_id := "SEED_" ++ toString d.seed_num ++ "_" ++ (region.take 2).toUpper
  let rep_score := round2 d.rep_u
  "[SOVEREIGN ID] " ++ seed_id ++ " active in " ++ region ++ " (rep: "
    ++ toString rep_score ++ ")"

/-- All random draws consumed by one `run_simulation_step` call.  The
per-region draw streams are indexed by position in the iterated list. -/
structure TickDraws where
  solar : ℕ → SolarDraw
  supply : ℕ → SupplyDraw
  orbital : ℕ → OrbitalDraw
  sovereign : ℕ → IdDraw
  threat : ℚ
  goldU : ℚ
  oilU : ℚ
  nuc : Bool

/-- Support of all distributions drawn during one tick:
threat `~ uniform(1000, 9000)`, gold `~ uniform(0, 0.002)`,
oil `~ uniform(0, 0.003)`. -/
def TickDraws.valid (td : TickDraws) : Prop :=
  (∀ k, (td.solar k).valid) ∧ (∀ k, (td.supply k).valid) ∧
  (∀ k, (td.orbital k).valid) ∧ (∀ k, (td.sovereign k).valid) ∧
  1000 ≤ td.threat ∧ td.threat ≤ 9000 ∧
  0 ≤ td.goldU ∧ td.goldU ≤ 1 / 500 ∧ 0 ≤ td.oilU ∧ td.oilU ≤ 3 / 1000

/-- The value of the dict key `'energy'`: `{'total_mwh': float}`. -/
structure EnergyDict where
  total_mwh : ℚ
deriving Repr, DecidableEq

/-- The simulation state with every key present (the shape guaranteed after the
lazy-initialisation block at the top of `run_simulation_step`). -/
structure SimState where
  solar_nodes : List SolarNodeController
  distribution_nodes : List UniversalDistributionNode
  asp : AISovereigntyProtocol
  energy : EnergyDict
  gold : ℚ
  oil : ℚ
  nuclear_signatures : ℤ
  anomalies : List String
  supply_chain : List String
  orbital : List String
  ids : List String
  bcp_transactions : List String
  logs : List String

/-- The Python dict `current_results`: every key possibly absent (`none`). -/
structure StateDict where
  solar_nodes : Option (List SolarNodeController) := none
  distribution_nodes : Option (List UniversalDistributionNode) := none
  asp : Option AISovereigntyProtocol := none
  energy : Option EnergyDict := none
  gold : Option ℚ := none
  oil : Option ℚ := none
  nuclear_signatures : Option ℤ := none
  anomalies : Option (List String) := none
  supply_chain : Option (List String) := none
  orbital : Option (List String) := none
  ids : Option (List String) := none
  bcp_transactions : Option (List String) := none
  logs : Option (List String) := none

/-- The dict `{}` with every key absent. -/
def emptyDict : StateDict := {}

/-- View of a fully initialised state as a dict (every key present). -/
def SimState.toDict (s : SimState) : StateDict :=
  { solar_nodes := some s.solar_nodes, distribution_nodes := some s.distribution_nodes,
    asp := some s.asp, energy := some s.energy, gold := some s.gold, oil := some s.oil,
    nuclear_signatures := some s.nuclear_signatures, anomalies := some s.anomalies,
    supply_chain := some s.supply_chain, orbital := some s.orbital, ids := some s.ids,
    bcp_transactions := some s.bcp_transactions, logs := some s.logs }

/-- The lazy-initialisation block of `run_simulation_step`
(`if 'k' not in current_results: current_results['k'] = default`). -/
def initState (gn : List String) (ps : StateDict) : SimState :=
  { solar_nodes := ps.solar_nodes.getD (gn.map SolarNodeController.init),
    distribution_nodes := ps.distribution_nodes.getD (gn.map UniversalDistributionNode.init),
    asp := ps.asp.getD {},
    energy := ps.energy.getD { total_mwh := 0 },
    gold := ps.gold.getD 0,
    oil := ps.oil.getD 0,
    nuclear_signatures := ps.nuclear_signatures.getD 0,
    anomalies := ps.anomalies.getD [],
    supply_chain := ps.supply_chain.getD [],
    orbital := ps.orbital.getD [],
    ids := ps.ids.getD [],
    bcp_transactions := ps.bcp_transactions.getD [],
    logs := ps.logs.getD [] }

/-- Python list slice `l[-50:]` generalised: the last `n` elements, in order. -/
def takeLast (n : ℕ) (l : List α) : List α := l.drop (l.length - n)

/-- Log-line prefix `f"[{current_time.strftime('%H:%M:%S')}] ..."`. -/
def stamp (ts s : String) : String := "[" ++ ts ++ "] " ++ s

/-- The list comprehension `[node.generate_energy() for node in solar_nodes]`
followed by `sum(...)`: the updated controllers and the summed outputs, with
the draw stream indexed from `k`. -/
def generateEnergyAll (ds : ℕ → SolarDraw) : ℕ → List SolarNodeController →
    List SolarNodeController × ℚ
  | _, [] => ([], 0)
  | k, c :: cs =>
    let r := c.generate_energy (ds k)
    let rest := generateEnergyAll ds (k + 1) cs
    (r.1 :: rest.1, r.2 + rest.2)

/-- The summed energy generated during one tick (`generated_mwh_this_interval`). -/
def tickEnergy (td : TickDraws) (st : SimState) : ℚ :=
  (generateEnergyAll td.solar 0 st.solar_nodes).2

/-- The `for region in GRID_NODES` loop body: returns the lines appended to
`supply_chain`, `orbital`, `ids` and `logs` (in that loop's append order). -/
def regionLoop (td : TickDraws) (ts : String) : ℕ → List String →
    List String × List String × List String × List String
  | _, [] => ([], [], [], [])
  | k, region :: rest =>
    let sc_log := simulate_supply_chain (td.supply k) region
    let orb_log := simulate_orbital_scan (td.orbital k) region
    let id_log := register_sovereign_id (td.sovereign k) region
    let r := regionLoop td ts (k + 1) rest
    (stamp ts sc_log :: r.1, stamp ts orb_log :: r.2.1, stamp ts id_log :: r.2.2.1,
     stamp ts sc_log :: stamp ts orb_log :: stamp ts id_log :: r.2.2.2)

/-- The distribution-loop log line
`f"[{t}] [DISTRIBUTION] {node.region_name} current balance {node.energy_balance:.6f} MWh."`. -/
def distLine (ts : String) (n : UniversalDistributionNode) : String :=
  stamp ts ("[DISTRIBUTION] " ++ n.region_name ++ " current balance "
    ++ fmtFixed 6 n.energy_balance ++ " MWh.")

/-- All lines appended to `current_results['logs']` during one tick, in append
order, before the final `[-50:]` truncation. -/
def tickNewLogs (gn : List String) (i : ℚ) (td : TickDraws) (ts : String)
    (st : SimState) : List String :=
  let generated := tickEnergy td st
  let distribution_nodes1 :=
    st.distribution_nodes.map (UniversalDistributionNode.balance_and_distribute gn generated)
  let gold_found := ai_boring_search_for_gold td.goldU (i / 60)
  let oil_found := ai_boring_search_for_oil td.oilU (i / 60)
  let nuc_found := quiet_nuclear_protocol_scan td.nuc (i / 60)
  stamp ts ("[ENERGY] Generated " ++ fmtFixed 6 generated ++ " MWh.")
    :: distribution_nodes1.map (distLine ts)
    ++ (regionLoop td ts 0 gn).2.2.2
    ++ (if AISovereigntyProtocol.monitor_grid_integrity td.threat
        then [stamp ts "[ASP ALERT] Threat Quarantined"] else [])
    ++ [stamp ts ("[GOLD SEARCH] Found " ++ fmtFixed 6 gold_found
          ++ " units of gold. Total: " ++ fmtFixed 6 (st.gold + gold_found)),
        stamp ts ("[OIL SEARCH] Found " ++ fmtFixed 6 oil_found
          ++ " barrels of oil. Total: " ++ fmtFixed 6 (st.oil + oil_found)),
        stamp ts ("[NUCLEAR SCAN] Detected " ++ toString nuc_found
          ++ " nuclear signatures. Total: "
          ++ toString (st.nuclear_signatures + nuc_found))]

/-- The body of `run_simulation_step` after the lazy-initialisation block: one
tick over a fully initialised state. -/
def tickCore (gn : List String) (i : ℚ) (td : TickDraws) (ts : String)
    (st : SimState) : SimState :=
  let generated := tickEnergy td st
  let rl := regionLoop td ts 0 gn
  { solar_nodes := (generateEnergyAll td.solar 0 st.solar_nodes).1,
    distribution_nodes :=
      st.distribution_nodes.map (UniversalDistributionNode.balance_and_distribute gn generated),
    asp := st.asp,
    energy := { total_mwh := st.energy.total_mwh + generated },
    gold := st.gold + ai_boring_search_for_gold td.goldU (i / 60),
    oil := st.oil + ai_boring_search_for_oil td.oilU (i / 60),
    nuclear_signatures :=
      st.nuclear_signatures + quiet_nuclear_protocol_scan td.nuc (i / 60),
    anomalies := st.anomalies
      ++ (if AISovereigntyProtocol.monitor_grid_integrity td.threat
          then [stamp ts "[ASP ALERT] Threat Quarantined"] else []),
    supply_chain := st.supply_chain ++ rl.1,
    orbital := st.orbital ++ rl.2.1,
    ids := st.ids ++ rl.2.2.1,
    bcp_transactions := st.bcp_transactions,
    logs := takeLast 50 (st.logs ++ tickNewLogs gn i td ts st) }

/-- `run_simulation_step(current_results, current_time, sim_interval_seconds)`:
lazy initialisation of missing keys followed by one tick.  `gn` is the module
constant `GRID_NODES`, `i` the `sim_interval_seconds` argument, `ts` the
formatted `current_time`. -/
def run_simulation_step (gn : List String) (i : ℚ) (td : TickDraws) (ts : String)
    (ps : StateDict) : SimState :=
  tickCore gn i td ts (initState gn ps)

/-- A Python dict key read `d['k']`: raises `KeyError` when the key is absent. -/
def getKey (key : String) : Option α → Except String α
  | some a => Except.ok a
  | none => Except.error ("KeyError: " ++ key)

/-- A Python for-loop applying a fallible operation to each element, collecting
the results and propagating the first raised error. -/
def mapExcept (f : α → Except String β) : List α → Except String (List β)
  | [] => Except.ok []
  | a :: as => do
    let b ← f a
    let bs ← mapExcept f as
    pure (b :: bs)

/-- Fallible rendering of `run_simulation_step`: the lazy-initialisation block,
then every dict key read (a potential `KeyError`), then the distribution loop
with its potential `ZeroDivisionError`, then the tick result. -/
def run_simulation_stepE (gn : List String) (i : ℚ) (td : TickDraws) (ts : String)
    (ps0 : StateDict) : Except String SimState := do
  let ps := (initState gn ps0).toDict
  let solar_nodes ← getKey "solar_nodes" ps.solar_nodes
  let distribution_nodes ← getKey "distribution_nodes" ps.distribution_nodes
  let asp ← getKey "asp" ps.asp
  let energy ← getKey "energy" ps.energy
  let gold ← getKey "gold" ps.gold
  let oil ← getKey "oil" ps.oil
  let nuclear_signatures ← getKey "nuclear_signatures" ps.nuclear_signatures
  let anomalies ← getKey "anomalies" ps.anomalies
  let supply_chain ← getKey "supply_chain" ps.supply_chain
  let orbital ← getKey "orbital" ps.orbital
  let ids ← getKey "ids" ps.ids
  let bcp_transactions ← getKey "bcp_transactions" ps.bcp_transactions
  let logs ← getKey "logs" ps.logs
  let s : SimState := ⟨solar_nodes, distribution_nodes, asp, energy, gold, oil,
    nuclear_signatures, anomalies, supply_chain, orbital, ids, bcp_transactions, logs⟩
  let _ ← mapExcept
    (UniversalDistributionNode.balance_and_distributeE gn (tickEnergy td s))
    s.distribution_nodes
  pure (tickCore gn i td ts s)

/-- Repeated calls of `run_simulation_step`, each fed the previously returned
state (one oracle/timestamp pair per call). -/
def iterateRun (gn : List String) (i : ℚ) : List (TickDraws × String) → StateDict →
    StateDict
  | [], ps => ps
  | t :: rest, ps =>
    iterateRun gn i rest (run_simulation_step gn i t.1 t.2 ps).toDict

/-- Repeated calls of the fallible `run_simulation_stepE`, each fed the
previously returned state. -/
def iterateRunE (gn : List String) (i : ℚ) : List (TickDraws × String) → StateDict →
    Except String StateDict
  | [], ps => Except.ok ps
  | t :: rest, ps => do
    let s ← run_simulation_stepE gn i t.1 t.2 ps
    iterateRunE gn i rest s.toDict

/-- The state kept by `streamlit_app.py` around the core state: the core dict
plus `sim_step_count` (the dashboard also keeps `current_sim_time`, consumed
only through formatting, so it is represented by the per-tick timestamp). -/
structure DriverState where
  sim : SimState
  sim_step_count : ℤ

/-- The fresh `st.session_state.sim_results` built by `streamlit_app.py`:
all totals zero, empty lists, nodes constructed once from `GRID_NODES`. -/
def driverFresh : DriverState :=
  { sim :=
      { solar_nodes := GRID_NODES.map SolarNodeController.init,
        distribution_nodes := GRID_NODES.map UniversalDistributionNode.init,
        asp := {},
        energy := { total_mwh := 0 },
        gold := 0, oil := 0, nuclear_signatures := 0,
        anomalies := [], supply_chain := [], orbital := [], ids := [],
        bcp_transactions := [], logs := [] },
    sim_step_count := 0 }

/-- One iteration of the dashboard loop: increment `sim_step_count`, then call
`run_simulation_step` with `GRID_NODES` and `SIM_INTERVAL_SECONDS`. -/
def driverStep (t : TickDraws × String) (d : DriverState) : DriverState :=
  { sim := run_simulation_step GRID_NODES SIM_INTERVAL_SECONDS t.1 t.2 d.sim.toDict,
    sim_step_count := d.sim_step_count + 1 }

/-- The dashboard loop run over a list of per-tick oracles. -/
def driverRun : List (TickDraws × String) → DriverState → DriverState
  | [], d => d
  | t :: rest, d => driverRun rest (driverStep t d)

/-! ### Basic arithmetic facts about the embedded operations -/

theorem round6_nonneg {x : ℚ} (hx : 0 ≤ x) : 0 ≤ round6 x := by
  unfold round6
  rw [round_eq]
  have h : (0 : ℤ) ≤ ⌊x * 1000000 + 1 / 2⌋ := by
    apply Int.le_floor.mpr
    push_cast
    linarith
  exact div_nonneg (by exact_mod_cast h) (by norm_num)

theorem round6_le_add (x : ℚ) : round6 x ≤ x + 1 / 2000000 := by
  unfold round6
  rw [round_eq]
  have h := Int.floor_le (x * 1000000 + 1 / 2)
  have h1000000 : (0 : ℚ) < 1000000 := by norm_num
  rw [div_le_iff₀ h1000000]
  linarith

/-- The value returned by `generate_energy`, written out. -/
theorem generate_energy_val (c : SolarNodeController) (d : SolarDraw) :
    (c.generate_energy d).2 =
      d.irr / 1000 * (3 / 10) * (max 80 (c.panel_health - d.drop) / 100) *
        max (3 / 4) (1 - (d.temp - 25) * (1 / 100)) * (SIM_INTERVAL_SECONDS / 3600) := rfl

theorem generate_energy_nonneg (c : SolarNodeController) (d : SolarDraw)
    (hd : d.valid) : 0 ≤ (c.generate_energy d).2 := by
  rw [generate_energy_val]
  have hirr : (0 : ℚ) ≤ d.irr := le_trans (by norm_num) hd.1
  have h1 : (0 : ℚ) ≤ d.irr / 1000 * (3 / 10) :=
    mul_nonneg (div_nonneg hirr (by norm_num)) (by norm_num)
  have h2 : (0 : ℚ) ≤ max 80 (c.panel_health - d.drop) / 100 :=
    div_nonneg (le_trans (by norm_num) (le_max_left _ _)) (by norm_num)
  have h3 : (0 : ℚ) ≤ max (3 / 4) (1 - (d.temp - 25) * (1 / 100)) :=
    le_trans (by norm_num) (le_max_left _ _)
  have h4 : (0 : ℚ) ≤ SIM_INTERVAL_SECONDS / 3600 := by norm_num [SIM_INTERVAL_SECONDS]
  exact mul_nonneg (mul_nonneg (mul_nonneg h1 h2) h3) h4

theorem generate_energy_pos (c : SolarNodeController) (d : SolarDraw)
    (hd : d.valid) : 0 < (c.generate_energy d).2 := by
  rw [generate_energy_val]
  have h1 : (0 : ℚ) < d.irr / 1000 * (3 / 10) :=
    mul_pos (div_pos (lt_of_lt_of_le (by norm_num) hd.1) (by norm_num)) (by norm_num)
  have h2 : (0 : ℚ) < max 80 (c.panel_health - d.drop) / 100 :=
    div_pos (lt_of_lt_of_le (by norm_num) (le_max_left _ _)) (by norm_num)
  have h3 : (0 : ℚ) < max (3 / 4) (1 - (d.temp - 25) * (1 / 100)) :=
    lt_of_lt_of_le (by norm_num) (le_max_left _ _)
  have h4 : (0 : ℚ) < SIM_INTERVAL_SECONDS / 3600 := by norm_num [SIM_INTERVAL_SECONDS]
  exact mul_pos (mul_pos (mul_pos h1 h2) h3) h4

/-- One generate call can only decrease `panel_health`, and keeps it at or
above the floor 80. -/
def HealthStep (c c2 : SolarNodeController) : Prop :=
  c2.panel_health ≤ c.panel_health ∧ 80 ≤ c2.panel_health

theorem generate_energy_healthStep (c : SolarNodeController) (d : SolarDraw)
    (hd : d.valid) (hc : 80 ≤ c.panel_health) : HealthStep c (c.generate_energy d).1 := by
  have hdrop : 0 ≤ d.drop := hd.2.2.2.2.1
  constructor
  · show max 80 (c.panel_health - d.drop) ≤ c.panel_health
    exact max_le hc (by linarith)
  · exact le_max_left _ _

/-! ### Facts about the solar generation loop -/

theorem generateEnergyAll_length (ds : ℕ → SolarDraw) (k : ℕ)
    (l : List SolarNodeController) :
    ((generateEnergyAll ds k l).1).length = l.length := by
  induction l generalizing k with
  | nil => rfl
  | cons c cs ih => simp [generateEnergyAll, ih]

theorem generateEnergyAll_nonneg (ds : ℕ → SolarDraw) (hds : ∀ j, (ds j).valid)
    (k : ℕ) (l : List SolarNodeController) : 0 ≤ (generateEnergyAll ds k l).2 := by
  induction l generalizing k with
  | nil => exact le_refl 0
  | cons c cs ih =>
    simp only [generateEnergyAll]
    exact add_nonneg (generate_energy_nonneg c (ds k) (hds k)) (ih (k + 1))

theorem generateEnergyAll_pos (ds : ℕ → SolarDraw) (hds : ∀ j, (ds j).valid)
    (k : ℕ) (l : List SolarNodeController) (hl : l ≠ []) :
    0 < (generateEnergyAll ds k l).2 := by
  cases l with
  | nil => exact absurd rfl hl
  | cons c cs =>
    simp only [generateEnergyAll]
    exact add_pos_of_pos_of_nonneg (generate_energy_pos c (ds k) (hds k))
      (generateEnergyAll_nonneg ds hds (k + 1) cs)

theorem generateEnergyAll_health (ds : ℕ → SolarDraw) (hds : ∀ j, (ds j).valid)
    (k : ℕ) (l : List SolarNodeController) (hl : ∀ c ∈ l, 80 ≤ c.panel_health) :
    List.Forall₂ HealthStep l (generateEnergyAll ds k l).1 := by
  induction l generalizing k with
  | nil => exact List.Forall₂.nil
  | cons c cs ih =>
    simp only [generateEnergyAll]
    exact List.Forall₂.cons
      (generate_energy_healthStep c (ds k) (hds k) (hl c (List.mem_cons_self c cs)))
      (ih (k + 1) (fun c2 hc2 => hl c2 (List.mem_cons_of_mem c hc2)))

theorem forall₂_healthStep_refl (l : List SolarNodeController)
    (hl : ∀ c ∈ l, 80 ≤ c.panel_health) : List.Forall₂ HealthStep l l := by
  induction l with
  | nil => exact List.Forall₂.nil
  | cons c cs ih =>
    exact List.Forall₂.cons ⟨le_refl _, hl c (List.mem_cons_self c cs)⟩
      (ih (fun c2 hc2 => hl c2 (List.mem_cons_of_mem c hc2)))

theorem forall₂_healthStep_stacked {l1 l2 l3 : List SolarNodeController}
    (h12 : List.Forall₂ HealthStep l1 l2) (h23 : List.Forall₂ HealthStep l2 l3) :
    List.Forall₂ HealthStep l1 l3 := by
  induction h12 generalizing l3 with
  | nil =>
    cases h23
    exact List.Forall₂.nil
  | cons h hs ih =>
    cases h23 with
    | cons h2 hs2 => exact List.Forall₂.cons ⟨le_trans h2.1 h.1, h2.2⟩ (ih hs2)

theorem forall₂_healthStep_floor {l1 l2 : List SolarNodeController}
    (h : List.Forall₂ HealthStep l1 l2) : ∀ c ∈ l2, 80 ≤ c.panel_health := by
  induction h with
  | nil => intro c hc; simp at hc
  | cons hh hs ih =>
    intro c hc
    rcases List.mem_cons.mp hc with rfl | hc2
    · exact hh.2
    · exact ih c hc2

/-! ### Facts about logs, region loop, truncation -/

theorem takeLast_length (n : ℕ) (l : List α) : (takeLast n l).length = min n l.length := by
  simp only [takeLast, List.length_drop]
  omega

theorem takeLast_suffix (n : ℕ) (l : List α) : takeLast n l <:+ l :=
  List.drop_suffix _ _

theorem regionLoop_logs_length (td : TickDraws) (ts : String) (k : ℕ)
    (rs : List String) : ((regionLoop td ts k rs).2.2.2).length = 3 * rs.length := by
  induction rs generalizing k with
  | nil => rfl
  | cons r rest ih =>
    simp only [regionLoop, List.length_cons, ih]
    ring

/-! ### Projections of one tick -/

theorem tickCore_energy (gn : List String) (i : ℚ) (td : TickDraws) (ts : String)
    (st : SimState) :
    (tickCore gn i td ts st).energy.total_mwh = st.energy.total_mwh + tickEnergy td st := rfl

theorem tickCore_gold (gn : List String) (i : ℚ) (td : TickDraws) (ts : String)
    (st : SimState) :
    (tickCore gn i td ts st).gold = st.gold + ai_boring_search_for_gold td.goldU (i / 60) := rfl

theorem tickCore_oil (gn : List String) (i : ℚ) (td : TickDraws) (ts : String)
    (st : SimState) :
    (tickCore gn i td ts st).oil = st.oil + ai_boring_search_for_oil td.oilU (i / 60) := rfl

theorem tickCore_nuclear (gn : List String) (i : ℚ) (td : TickDraws) (ts : String)
    (st : SimState) :
    (tickCore gn i td ts st).nuclear_signatures =
      st.nuclear_signatures + quiet_nuclear_protocol_scan td.nuc (i / 60) := rfl

theorem tickCore_solar (gn : List String) (i : ℚ) (td : TickDraws) (ts : String)
    (st : SimState) :
    (tickCore gn i td ts st).solar_nodes = (generateEnergyAll td.solar 0 st.solar_nodes).1 := rfl

theorem tickCore_dist (gn : List String) (i : ℚ) (td : TickDraws) (ts : String)
    (st : SimState) :
    (tickCore gn i td ts st).distribution_nodes =
      st.distribution_nodes.map
        (UniversalDistributionNode.balance_and_distribute gn (tickEnergy td st)) := rfl

theorem tickCore_logs (gn : List String) (i : ℚ) (td : TickDraws) (ts : String)
    (st : SimState) :
    (tickCore gn i td ts st).logs = takeLast 50 (st.logs ++ tickNewLogs gn i td ts st) := rfl

theorem run_step_toDict (gn : List String) (i : ℚ) (td : TickDraws) (ts : String)
    (s : SimState) : run_simulation_step gn i td ts s.toDict = tickCore gn i td ts s := rfl

/-- Number of log lines appended by one tick (before truncation). -/
theorem tickNewLogs_length (gn : List String) (i : ℚ) (td : TickDraws) (ts : String)
    (st : SimState) :
    (tickNewLogs gn i td ts st).length =
      1 + st.distribution_nodes.length + 3 * gn.length +
        (if AISovereigntyProtocol.monitor_grid_integrity td.threat then 1 else 0) + 3 := by
  simp only [tickNewLogs, List.length_cons, List.length_append, List.length_map,
    regionLoop_logs_length]
  split <;> simp <;> ring

/-! ### One-tick monotonicity -/

theorem quiet_scan_nonneg (b : Bool) (m : ℚ) : 0 ≤ quiet_nuclear_protocol_scan b m := by
  unfold quiet_nuclear_protocol_scan
  split <;> omega

theorem quiet_scan_mem (b : Bool) (m : ℚ) :
    quiet_nuclear_protocol_scan b m = 0 ∨ quiet_nuclear_protocol_scan b m = 1 := by
  unfold quiet_nuclear_protocol_scan
  split
  · exact Or.inr rfl
  · exact Or.inl rfl

theorem tick_mono (gn : List String) (i : ℚ) (td : TickDraws) (ts : String)
    (st : SimState) (hi : 0 ≤ i) (hv : td.valid)
    (hh : ∀ c ∈ st.solar_nodes, 80 ≤ c.panel_health) :
    st.energy.total_mwh ≤ (tickCore gn i td ts st).energy.total_mwh ∧
    st.gold ≤ (tickCore gn i td ts st).gold ∧
    st.oil ≤ (tickCore gn i td ts st).oil ∧
    st.nuclear_signatures ≤ (tickCore gn i td ts st).nuclear_signatures ∧
    List.Forall₂ HealthStep st.solar_nodes (tickCore gn i td ts st).solar_nodes := by
  have hm : (0 : ℚ) ≤ i / 60 := div_nonneg hi (by norm_num)
  refine ⟨?_, ?_, ?_, ?_, ?_⟩
  · rw [tickCore_energy]
    have h := generateEnergyAll_nonneg td.solar hv.1 0 st.solar_nodes
    unfold tickEnergy
    linarith
  · rw [tickCore_gold]
    have h : 0 ≤ ai_boring_search_for_gold td.goldU (i / 60) :=
      round6_nonneg (mul_nonneg hv.2.2.2.2.2.2.1 hm)
    linarith
  · rw [tickCore_oil]
    have h : 0 ≤ ai_boring_search_for_oil td.oilU (i / 60) :=
      round6_nonneg (mul_nonneg hv.2.2.2.2.2.2.2.2.1 hm)
    linarith
  · rw [tickCore_nuclear]
    have h := quiet_scan_nonneg td.nuc (i / 60)
    omega
  · rw [tickCore_solar]
    exact generateEnergyAll_health td.solar hv.1 0 st.solar_nodes hh

/-- Repeated calls of `run_simulation_step` starting from a fully initialised
state, each call fed the state returned by the previous one. -/
def runSteps (gn : List String) (i : ℚ) : List (TickDraws × String) → SimState → SimState
  | [], s => s
  | t :: rest, s => runSteps gn i rest (run_simulation_step gn i t.1 t.2 s.toDict)

/-! ### The fallible layer returns no error -/

theorem mapExcept_balance {gn : List String} (h0 : gn.length ≠ 0) (amt : ℚ)
    (l : List UniversalDistributionNode) :
    mapExcept (UniversalDistributionNode.balance_and_distributeE gn amt) l =
      Except.ok (l.map (UniversalDistributionNode.balance_and_distribute gn amt)) := by
  induction l with
  | nil => rfl
  | cons n ns ih =>
    simp [mapExcept, UniversalDistributionNode.balance_and_distributeE, h0, ih]
    rfl

theorem run_simulation_stepE_ok (gn : List String) (hgn : gn ≠ []) (i : ℚ)
    (td : TickDraws) (ts : String) (ps : StateDict) :
    run_simulation_stepE gn i td ts ps =
      Except.ok (run_simulation_step gn i td ts ps) := by
  have h0 : gn.length ≠ 0 := by
    intro h
    exact hgn (List.length_eq_zero.mp h)
  have hred : run_simulation_stepE gn i td ts ps =
      Except.bind
        (mapExcept
          (UniversalDistributionNode.balance_and_distributeE gn
            (tickEnergy td (initState gn ps)))
          (initState gn ps).distribution_nodes)
        (fun _ => Except.ok (tickCore gn i td ts (initState gn ps))) := rfl
  rw [hred, mapExcept_balance h0]
  rfl

/-! ### Concrete oracle values used by the witnesses -/

/-- A concrete in-support solar draw. -/
def d0 : SolarDraw := ⟨1000, 25, 0⟩

/-- A concrete in-support supply-chain draw. -/
def sup0 : SupplyDraw := ⟨10000, "antivirals"⟩

/-- A concrete in-support orbital draw. -/
def orb0 : OrbitalDraw := ⟨"No Anomaly"⟩

/-- A concrete in-support sovereign-id draw. -/
def id0 : IdDraw := ⟨1000, 1 / 2⟩

/-- A concrete in-support tick oracle. -/
def td0 : TickDraws :=
  ⟨fun _ => d0, fun _ => sup0, fun _ => orb0, fun _ => id0, 5000, 0, 0, false⟩

theorem td0_valid : td0.valid := by
  refine ⟨fun k => ?_, fun k => ?_, fun k => ?_, fun k => ?_, ?_, ?_, ?_, ?_, ?_, ?_⟩ <;>
    norm_num [td0, d0, sup0, orb0, id0, SolarDraw.valid, SupplyDraw.valid,
      OrbitalDraw.valid, IdDraw.valid, medsList, findingsList]

theorem GRID_NODES_ne_nil : GRID_NODES ≠ [] := by simp [GRID_NODES]

theorem driverFresh_health : ∀ c ∈ driverFresh.sim.solar_nodes, 80 ≤ c.panel_health := by
  intro c hc
  simp only [driverFresh, GRID_NODES, List.map_cons, List.map_nil,
    SolarNodeController.init, List.mem_cons, List.not_mem_nil, or_false] at hc
  rcases hc with rfl | rfl | rfl <;> norm_num

theorem forall₂_map_self {α : Type} {R : α → α → Prop} {f : α → α} (l : List α)
    (h : ∀ a ∈ l, R a (f a)) : List.Forall₂ R l (l.map f) := by
  induction l with
  | nil => exact List.Forall₂.nil
  | cons a as ih =>
    exact List.Forall₂.cons (h a (List.mem_cons_self a as))
      (ih (fun b hb => h b (List.mem_cons_of_mem a hb)))

theorem sum_map_add_const {α : Type} (l : List α) (h : α → ℚ) (c : ℚ) :
    (l.map (fun a => h a + c)).sum = (l.map h).sum + l.length * c := by
  induction l with
  | nil => simp
  | cons a as ih =>
    simp only [List.map_cons, List.sum_cons, ih, List.length_cons]
    push_cast
    ring

/-! ### Claims -/

/-- Claim C1: after any sequence of `run_simulation_step` calls on an
initialized state (each call fed the previously returned state, with every
random draw inside the support of its distribution and a non-negative tick
interval), each accumulator (`energy.total_mwh`, `gold`, `oil`,
`nuclear_signatures`) is at least its initial value, and every solar node's
`panel_health` is at most its initial value and at least 80. -/
theorem spec_c1 (gn : List String) (i : ℚ) (ticks : List (TickDraws × String))
    (s : SimState) (hi : 0 ≤ i) (hv : ∀ t ∈ ticks, TickDraws.valid t.1)
    (hh : ∀ c ∈ s.solar_nodes, 80 ≤ c.panel_health) :
    s.energy.total_mwh ≤ (runSteps gn i ticks s).energy.total_mwh ∧
    s.gold ≤ (runSteps gn i ticks s).gold ∧
    s.oil ≤ (runSteps gn i ticks s).oil ∧
    s.nuclear_signatures ≤ (runSteps gn i ticks s).nuclear_signatures ∧
    List.Forall₂ HealthStep s.solar_nodes (runSteps gn i ticks s).solar_nodes := by
  induction ticks generalizing s with
  | nil =>
    exact ⟨le_refl _, le_refl _, le_refl _, le_refl _,
      forall₂_healthStep_refl s.solar_nodes hh⟩
  | cons t rest ih =>
    have hstep := tick_mono gn i t.1 t.2 s hi (hv t (List.mem_cons_self t rest)) hh
    have hinv := forall₂_healthStep_floor hstep.2.2.2.2
    have hrest := ih (tickCore gn i t.1 t.2 s)
      (fun t2 ht2 => hv t2 (List.mem_cons_of_mem t ht2)) hinv
    have hred : runSteps gn i (t :: rest) s = runSteps gn i rest (tickCore gn i t.1 t.2 s) := rfl
    rw [hred]
    exact ⟨le_trans hstep.1 hrest.1, le_trans hstep.2.1 hrest.2.1,
      le_trans hstep.2.2.1 hrest.2.2.1, le_trans hstep.2.2.2.1 hrest.2.2.2.1,
      forall₂_healthStep_stacked hstep.2.2.2.2 hrest.2.2.2.2⟩

/-- Witness for claim C1 at a concrete run: one tick with the concrete
in-support oracle `td0` from the dashboard's fresh state. -/
theorem spec_c1_witness :
    driverFresh.sim.energy.total_mwh ≤
      (runSteps GRID_NODES 1 [(td0, "00:00:00")] driverFresh.sim).energy.total_mwh ∧
    driverFresh.sim.gold ≤ (runSteps GRID_NODES 1 [(td0, "00:00:00")] driverFresh.sim).gold ∧
    driverFresh.sim.oil ≤ (runSteps GRID_NODES 1 [(td0, "00:00:00")] driverFresh.sim).oil ∧
    driverFresh.sim.nuclear_signatures ≤
      (runSteps GRID_NODES 1 [(td0, "00:00:00")] driverFresh.sim).nuclear_signatures ∧
    List.Forall₂ HealthStep driverFresh.sim.solar_nodes
      (runSteps GRID_NODES 1 [(td0, "00:00:00")] driverFresh.sim).solar_nodes :=
  spec_c1 GRID_NODES 1 [(td0, "00:00:00")] driverFresh.sim zero_le_one
    (fun t ht => by rw [List.mem_singleton.mp ht]; exact td0_valid)
    driverFresh_health

/-- Claim C2: if the state's logs have length at most 50 before the call, after
`run_simulation_step` the logs have length at most 50, and they are exactly the
last 50 of the old logs followed by the newly appended lines, in append order
(a suffix of that list, of length `min (old + new) 50`, so oldest entries are
dropped first). -/
theorem spec_c2 (gn : List String) (i : ℚ) (td : TickDraws) (ts : String)
    (s : SimState) (_h50 : s.logs.length ≤ 50) :
    (run_simulation_step gn i td ts s.toDict).logs.length ≤ 50 ∧
    (run_simulation_step gn i td ts s.toDict).logs =
      takeLast 50 (s.logs ++ tickNewLogs gn i td ts s) ∧
    (run_simulation_step gn i td ts s.toDict).logs <:+ (s.logs ++ tickNewLogs gn i td ts s) ∧
    (run_simulation_step gn i td ts s.toDict).logs.length =
      min (s.logs.length + (tickNewLogs gn i td ts s).length) 50 := by
  rw [run_step_toDict, tickCore_logs]
  refine ⟨?_, rfl, takeLast_suffix _ _, ?_⟩
  · rw [takeLast_length]
    omega
  · rw [takeLast_length, List.length_append]
    omega

/-- Witness for claim C2 at a concrete input. -/
theorem spec_c2_witness :
    (run_simulation_step GRID_NODES 1 td0 "00:00:00" driverFresh.sim.toDict).logs.length ≤ 50 ∧
    (run_simulation_step GRID_NODES 1 td0 "00:00:00" driverFresh.sim.toDict).logs =
      takeLast 50 (driverFresh.sim.logs ++ tickNewLogs GRID_NODES 1 td0 "00:00:00" driverFresh.sim) ∧
    (run_simulation_step GRID_NODES 1 td0 "00:00:00" driverFresh.sim.toDict).logs <:+
      (driverFresh.sim.logs ++ tickNewLogs GRID_NODES 1 td0 "00:00:00" driverFresh.sim) ∧
    (run_simulation_step GRID_NODES 1 td0 "00:00:00" driverFresh.sim.toDict).logs.length =
      min (driverFresh.sim.logs.length +
        (tickNewLogs GRID_NODES 1 td0 "00:00:00" driverFresh.sim).length) 50 :=
  spec_c2 GRID_NODES 1 td0 "00:00:00" driverFresh.sim (Nat.zero_le 50)

/-- Claim C3: during one tick on a state whose distribution-node list matches a
non-empty region set of size R, every distribution node's balance increases by
exactly `tick_energy / R`, and the balances sum to the old sum plus the full
tick energy (exact rational arithmetic, hence within floating tolerance). -/
theorem spec_c3 (gn : List String) (i : ℚ) (td : TickDraws) (ts : String)
    (st : SimState) (hgn : gn ≠ []) (hR : st.distribution_nodes.length = gn.length) :
    List.Forall₂
      (fun n n2 => n2.energy_balance = n.energy_balance + tickEnergy td st / (gn.length : ℚ))
      st.distribution_nodes (tickCore gn i td ts st).distribution_nodes ∧
    ((tickCore gn i td ts st).distribution_nodes.map
        UniversalDistributionNode.energy_balance).sum =
      (st.distribution_nodes.map UniversalDistributionNode.energy_balance).sum +
        tickEnergy td st := by
  have hlen : ((gn.length : ℕ) : ℚ) ≠ 0 :=
    Nat.cast_ne_zero.mpr (fun h => hgn (List.length_eq_zero.mp h))
  constructor
  · rw [tickCore_dist]
    exact forall₂_map_self st.distribution_nodes (fun n _ => rfl)
  · rw [tickCore_dist, List.map_map]
    have hcomp :
        (UniversalDistributionNode.energy_balance ∘
          UniversalDistributionNode.balance_and_distribute gn (tickEnergy td st)) =
        fun n => n.energy_balance + tickEnergy td st / (gn.length : ℚ) := rfl
    rw [hcomp, sum_map_add_const, hR, mul_div_cancel₀ _ hlen]

/-- Witness for claim C3 at a concrete input. -/
theorem spec_c3_witness :
    List.Forall₂
      (fun n n2 => n2.energy_balance =
        n.energy_balance + tickEnergy td0 driverFresh.sim / (GRID_NODES.length : ℚ))
      driverFresh.sim.distribution_nodes
      (tickCore GRID_NODES 1 td0 "00:00:00" driverFresh.sim).distribution_nodes ∧
    ((tickCore GRID_NODES 1 td0 "00:00:00" driverFresh.sim).distribution_nodes.map
        UniversalDistributionNode.energy_balance).sum =
      (driverFresh.sim.distribution_nodes.map
        UniversalDistributionNode.energy_balance).sum + tickEnergy td0 driverFresh.sim :=
  spec_c3 GRID_NODES 1 td0 "00:00:00" driverFresh.sim GRID_NODES_ne_nil rfl

/-- Claim C4: the integrity monitor is a deterministic pure function of its
argument, true exactly above 8500, false at and below it, in particular false
at exactly 8500. -/
theorem spec_c4 :
    (∀ x : ℚ, AISovereigntyProtocol.monitor_grid_integrity x = true ↔ 8500 < x) ∧
    (∀ x : ℚ, AISovereigntyProtocol.monitor_grid_integrity x = false ↔ x ≤ 8500) ∧
    AISovereigntyProtocol.monitor_grid_integrity 8500 = false := by
  refine ⟨fun x => ?_, fun x => ?_, ?_⟩
  · simp [AISovereigntyProtocol.monitor_grid_integrity]
  · simp [AISovereigntyProtocol.monitor_grid_integrity]
  · simp [AISovereigntyProtocol.monitor_grid_integrity]

/-- Claim C6: every `generate_energy` call returns
`(irradiance/1000 × 0.3) × (panel_health/100) × max(0.75, 1 − (temperature−25) × 0.01)
× (SIM_INTERVAL_SECONDS/3600)` evaluated at the freshly drawn sensor values held
by the updated controller. -/
theorem spec_c6 (c : SolarNodeController) (d : SolarDraw) :
    (c.generate_energy d).2 =
      (c.generate_energy d).1.irradiance / 1000 * (3 / 10) *
        ((c.generate_energy d).1.panel_health / 100) *
        max (3 / 4) (1 - ((c.generate_energy d).1.temperature - 25) * (1 / 100)) *
        (SIM_INTERVAL_SECONDS / 3600) := rfl

/-- Claim C10: one tick appends, before truncation, exactly `4R + 4` log lines
when the integrity draw is at most 8500 and `4R + 5` lines (the anomaly alert)
when it exceeds 8500, for a state whose distribution-node list matches the
R-region configuration. -/
theorem spec_c10 (gn : List String) (i : ℚ) (td : TickDraws) (ts : String)
    (st : SimState) (hR : st.distribution_nodes.length = gn.length) :
    (tickNewLogs gn i td ts st).length =
      if 8500 < td.threat then 4 * gn.length + 5 else 4 * gn.length + 4 := by
  rw [tickNewLogs_length, hR]
  unfold AISovereigntyProtocol.monitor_grid_integrity
  by_cases h : 8500 < td.threat <;> simp [h] <;> omega

/-- Witness for claim C10 at the concrete 3-region configuration (yielding the
16-line count for a below-threshold draw). -/
theorem spec_c10_witness :
    (tickNewLogs GRID_NODES 1 td0 "00:00:00" driverFresh.sim).length =
      if 8500 < td0.threat then 4 * GRID_NODES.length + 5
      else 4 * GRID_NODES.length + 4 :=
  spec_c10 GRID_NODES 1 td0 "00:00:00" driverFresh.sim rfl

theorem iterateRunE_ok (gn : List String) (hgn : gn ≠ []) (i : ℚ)
    (ticks : List (TickDraws × String)) (ps : StateDict) :
    iterateRunE gn i ticks ps = Except.ok (iterateRun gn i ticks ps) := by
  induction ticks generalizing ps with
  | nil => rfl
  | cons t rest ih =>
    show Except.bind (run_simulation_stepE gn i t.1 t.2 ps)
        (fun s => iterateRunE gn i rest s.toDict) = _
    rw [run_simulation_stepE_ok gn hgn]
    exact ih (run_simulation_step gn i t.1 t.2 ps).toDict

/-- Claim C7: `run_simulation_step` on a dict with any subset of the state keys
missing (including the empty dict) raises no error: it lazily initializes every
missing key, no key read after initialization can fail, and the returned state
can be fed to the next call, so every sequence of repeated calls succeeds (the
fallible rendering always returns `ok` of the pure result); initialization is
the identity on an already-initialized state. -/
theorem spec_c7 :
    (∀ (i : ℚ) (ticks : List (TickDraws × String)) (ps : StateDict),
        iterateRunE GRID_NODES i ticks ps =
          Except.ok (iterateRun GRID_NODES i ticks ps)) ∧
    (∀ (i : ℚ) (td : TickDraws) (ts : String) (ps : StateDict),
        run_simulation_stepE GRID_NODES i td ts ps =
          Except.ok (run_simulation_step GRID_NODES i td ts ps)) ∧
    (∀ s : SimState, initState GRID_NODES s.toDict = s) :=
  ⟨fun i ticks ps => iterateRunE_ok GRID_NODES GRID_NODES_ne_nil i ticks ps,
   fun i td ts ps => run_simulation_stepE_ok GRID_NODES GRID_NODES_ne_nil i td ts ps,
   fun _ => rfl⟩

/-- Claim C8 counterexample: with draw `u = 0.0018` (inside `[0, 0.002]`) and
minutes `m = 0.0009 ≥ 0`, the gold generator returns
`round(0.00000162, 6) = 0.000002 > 0.002 × m = 0.0000018`, so the result is not
in `[0, 0.002 × m]`. -/
theorem spec_c8_counterexample :
    (0 ≤ (9 : ℚ) / 5000 ∧ (9 : ℚ) / 5000 ≤ 1 / 500 ∧ 0 ≤ (9 : ℚ) / 10000) ∧
    ¬ (ai_boring_search_for_gold ((9 : ℚ) / 5000) ((9 : ℚ) / 10000) ≤
        1 / 500 * ((9 : ℚ) / 10000)) := by
  constructor
  · norm_num
  · norm_num [ai_boring_search_for_gold, round6, round_eq]

/-- Claim C8 amended: for every minutes value m ≥ 0 and every in-support draw,
the gold generator returns a value in `[0, 0.002·m + 5·10⁻⁷]` and the oil
generator a value in `[0, 0.003·m + 5·10⁻⁷]` (the bound `rate·m` can be
exceeded by at most half an ulp of the 6-decimal rounding), and the nuclear
scan returns a value in `{0, 1}`. -/
theorem spec_c8 :
    (∀ u m : ℚ, 0 ≤ u → u ≤ 1 / 500 → 0 ≤ m →
        0 ≤ ai_boring_search_for_gold u m ∧
        ai_boring_search_for_gold u m ≤ 1 / 500 * m + 1 / 2000000) ∧
    (∀ u m : ℚ, 0 ≤ u → u ≤ 3 / 1000 → 0 ≤ m →
        0 ≤ ai_boring_search_for_oil u m ∧
        ai_boring_search_for_oil u m ≤ 3 / 1000 * m + 1 / 2000000) ∧
    (∀ (b : Bool) (m : ℚ),
        quiet_nuclear_protocol_scan b m = 0 ∨ quiet_nuclear_protocol_scan b m = 1) := by
  refine ⟨fun u m hu hu2 hm => ⟨round6_nonneg (mul_nonneg hu hm), ?_⟩,
          fun u m hu hu2 hm => ⟨round6_nonneg (mul_nonneg hu hm), ?_⟩,
          quiet_scan_mem⟩
  · have h1 := round6_le_add (u * m)
    have h2 : u * m ≤ 1 / 500 * m := mul_le_mul_of_nonneg_right hu2 hm
    unfold ai_boring_search_for_gold
    linarith
  · have h1 := round6_le_add (u * m)
    have h2 : u * m ≤ 3 / 1000 * m := mul_le_mul_of_nonneg_right hu2 hm
    unfold ai_boring_search_for_oil
    linarith

theorem gold_rate_nonneg : (0 : ℚ) ≤ 1 / 500 := by norm_num

theorem oil_rate_nonneg : (0 : ℚ) ≤ 3 / 1000 := by norm_num

/-- Witness for claim C8 at concrete in-support inputs. -/
theorem spec_c8_witness :
    (0 ≤ ai_boring_search_for_gold 0 1 ∧
      ai_boring_search_for_gold 0 1 ≤ 1 / 500 * 1 + 1 / 2000000) ∧
    (0 ≤ ai_boring_search_for_oil 0 1 ∧
      ai_boring_search_for_oil 0 1 ≤ 3 / 1000 * 1 + 1 / 2000000) :=
  ⟨spec_c8.1 0 1 (le_refl 0) gold_rate_nonneg zero_le_one,
   spec_c8.2.1 0 1 (le_refl 0) oil_rate_nonneg zero_le_one⟩

/-- Claim C9 counterexample: there is no startup guard for an empty region
set.  With an empty region list the division inside `balance_and_distribute`
fails at tick time with a division-by-zero error (not a
"configuration invalid: empty region set" startup error), while a whole
simulation step under the empty-region configuration even succeeds silently
(its lazily created distribution-node list is empty, so the division is never
reached) instead of being rejected at startup. -/
theorem spec_c9_counterexample :
    UniversalDistributionNode.balance_and_distributeE [] 1
        { region_name := "RegionAlpha", energy_balance := 0 } =
      Except.error "ZeroDivisionError: division by zero" ∧
    run_simulation_stepE [] 1 td0 "00:00:00" emptyDict =
      Except.ok (run_simulation_step [] 1 td0 "00:00:00" emptyDict) :=
  ⟨rfl, rfl⟩

/-- Claim C9 amended: the only latent fault is the division by the
region-count constant inside `balance_and_distribute`, which (when invoked)
fails exactly when the region set is empty; the implementation contains no
startup guard — the failure would occur at tick time as a division-by-zero
error — and with a non-empty region set no operation of the core can raise an
error. -/
theorem spec_c9 :
    (∀ (gn : List String) (amt : ℚ) (n : UniversalDistributionNode),
        (∃ n2, UniversalDistributionNode.balance_and_distributeE gn amt n =
          Except.ok n2) ↔ gn ≠ []) ∧
    (∀ (gn : List String) (i : ℚ) (td : TickDraws) (ts : String) (ps : StateDict),
        gn ≠ [] →
          run_simulation_stepE gn i td ts ps =
            Except.ok (run_simulation_step gn i td ts ps)) := by
  constructor
  · intro gn amt n
    constructor
    · rintro ⟨n2, hn2⟩ hnil
      subst hnil
      simp [UniversalDistributionNode.balance_and_distributeE] at hn2
    · intro hgn
      refine ⟨n.balance_and_distribute gn amt, ?_⟩
      unfold UniversalDistributionNode.balance_and_distributeE
      rw [if_neg (fun h => hgn (List.length_eq_zero.mp h))]
  · intro gn i td ts ps hgn
    exact run_simulation_stepE_ok gn hgn i td ts ps

/-- Witness for claim C9 at the concrete 3-region configuration. -/
theorem spec_c9_witness :
    (∃ n2, UniversalDistributionNode.balance_and_distributeE GRID_NODES 1
        { region_name := "RegionAlpha", energy_balance := 0 } = Except.ok n2) ∧
    run_simulation_stepE GRID_NODES 1 td0 "00:00:00" emptyDict =
      Except.ok (run_simulation_step GRID_NODES 1 td0 "00:00:00" emptyDict) :=
  ⟨(spec_c9.1 GRID_NODES 1 { region_name := "RegionAlpha", energy_balance := 0 }).mpr
      GRID_NODES_ne_nil,
   spec_c9.2 GRID_NODES 1 td0 "00:00:00" emptyDict GRID_NODES_ne_nil⟩

theorem driver_inv (ticks : List (TickDraws × String)) :
    ∀ d : DriverState,
      d.sim.solar_nodes.length = 3 →
      d.sim.distribution_nodes.length = 3 →
      d.sim.logs.length ≤ 50 →
      (∀ t ∈ ticks, TickDraws.valid t.1) →
      (driverRun ticks d).sim_step_count = d.sim_step_count + ticks.length ∧
      (driverRun ticks d).sim.solar_nodes.length = 3 ∧
      (driverRun ticks d).sim.distribution_nodes.length = 3 ∧
      (driverRun ticks d).sim.logs.length ≤ 50 ∧
      min (d.sim.logs.length + 16 * ticks.length) 50 ≤ (driverRun ticks d).sim.logs.length ∧
      d.sim.energy.total_mwh ≤ (driverRun ticks d).sim.energy.total_mwh ∧
      (ticks ≠ [] → d.sim.energy.total_mwh < (driverRun ticks d).sim.energy.total_mwh) := by
  induction ticks with
  | nil =>
    intro d h1 h2 h3 _
    refine ⟨by simp [driverRun], h1, h2, h3, ?_, le_refl _, fun h => absurd rfl h⟩
    show min (d.sim.logs.length + 16 * ([] : List (TickDraws × String)).length) 50 ≤
      d.sim.logs.length
    simp only [List.length_nil]
    omega
  | cons t rest ih =>
    intro d h1 h2 h3 hv
    have hsim : (driverStep t d).sim =
        tickCore GRID_NODES SIM_INTERVAL_SECONDS t.1 t.2 d.sim := rfl
    have htv : TickDraws.valid t.1 := hv t (List.mem_cons_self t rest)
    have hs1 : (driverStep t d).sim.solar_nodes.length = 3 := by
      rw [hsim, tickCore_solar, generateEnergyAll_length, h1]
    have hs2 : (driverStep t d).sim.distribution_nodes.length = 3 := by
      rw [hsim, tickCore_dist, List.length_map, h2]
    have hglen : GRID_NODES.length = 3 := rfl
    have hL : 16 ≤ (tickNewLogs GRID_NODES SIM_INTERVAL_SECONDS t.1 t.2 d.sim).length := by
      rw [tickNewLogs_length, h2, hglen]
      split <;> omega
    have hlog_eq : (driverStep t d).sim.logs.length =
        min 50 (d.sim.logs.length +
          (tickNewLogs GRID_NODES SIM_INTERVAL_SECONDS t.1 t.2 d.sim).length) := by
      rw [hsim, tickCore_logs, takeLast_length, List.length_append]
    have hlog50 : (driverStep t d).sim.logs.length ≤ 50 := by
      rw [hlog_eq]; omega
    have hcnt : (driverStep t d).sim_step_count = d.sim_step_count + 1 := rfl
    have hE : (driverStep t d).sim.energy.total_mwh =
        d.sim.energy.total_mwh + tickEnergy t.1 d.sim := by
      rw [hsim, tickCore_energy]
    have hsolar_ne : d.sim.solar_nodes ≠ [] := by
      intro hnil; rw [hnil] at h1; simp at h1
    have hEpos : 0 < tickEnergy t.1 d.sim :=
      generateEnergyAll_pos t.1.solar htv.1 0 d.sim.solar_nodes hsolar_ne
    have hrun : driverRun (t :: rest) d = driverRun rest (driverStep t d) := rfl
    have hrest := ih (driverStep t d) hs1 hs2 hlog50
      (fun t2 ht2 => hv t2 (List.mem_cons_of_mem t ht2))
    rw [hrun]
    refine ⟨?_, hrest.2.1, hrest.2.2.1, hrest.2.2.2.1, ?_, ?_, ?_⟩
    · rw [hrest.1, hcnt]
      simp only [List.length_cons]
      push_cast
      ring
    · have hmin := hrest.2.2.2.2.1
      rw [hlog_eq] at hmin
      simp only [List.length_cons]
      omega
    · exact le_trans (by rw [hE]; linarith) hrest.2.2.2.2.2.1
    · intro _
      exact lt_of_lt_of_le (by rw [hE]; linarith) hrest.2.2.2.2.2.1

/-- Claim C5: starting from the dashboard's freshly initialized 3-region state
with `interval_seconds = 1`, any 10 driver iterations (with all draws in
support) leave `sim_step_count = 10`, a strictly positive accumulated
`total_mwh`, `recent_logs` of length `min(per-tick lines summed, 50) = 50`,
and the fallible rendering of the same 10 calls raises no error. -/
theorem spec_c5 (ticks : List (TickDraws × String)) (hlen : ticks.length = 10)
    (hv : ∀ t ∈ ticks, TickDraws.valid t.1) :
    (driverRun ticks driverFresh).sim_step_count = 10 ∧
    0 < (driverRun ticks driverFresh).sim.energy.total_mwh ∧
    (driverRun ticks driverFresh).sim.logs.length = 50 ∧
    (∃ ps, iterateRunE GRID_NODES SIM_INTERVAL_SECONDS ticks driverFresh.sim.toDict =
        Except.ok ps) := by
  have h := driver_inv ticks driverFresh rfl rfl (Nat.zero_le 50) hv
  have hne : ticks ≠ [] := by
    intro hnil; rw [hnil] at hlen; simp at hlen
  refine ⟨?_, ?_, ?_,
    ⟨_, iterateRunE_ok GRID_NODES GRID_NODES_ne_nil SIM_INTERVAL_SECONDS ticks _⟩⟩
  · rw [h.1, hlen]
    rfl
  · have hstrict := h.2.2.2.2.2.2 hne
    have h0 : driverFresh.sim.energy.total_mwh = 0 := rfl
    rw [h0] at hstrict
    exact hstrict
  · have h50 := h.2.2.2.1
    have hmin := h.2.2.2.2.1
    have h0 : driverFresh.sim.logs.length = 0 := rfl
    rw [h0, hlen] at hmin
    omega

/-- Witness for claim C5: ten concrete in-support ticks. -/
theorem spec_c5_witness :
    (driverRun (List.replicate 10 (td0, "00:00:00")) driverFresh).sim_step_count = 10 ∧
    0 < (driverRun (List.replicate 10 (td0, "00:00:00")) driverFresh).sim.energy.total_mwh ∧
    (driverRun (List.replicate 10 (td0, "00:00:00")) driverFresh).sim.logs.length = 50 ∧
    (∃ ps, iterateRunE GRID_NODES SIM_INTERVAL_SECONDS
        (List.replicate 10 (td0, "00:00:00")) driverFresh.sim.toDict = Except.ok ps) :=
  spec_c5 (List.replicate 10 (td0, "00:00:00")) rfl
    (fun t ht => by rw [List.eq_of_mem_replicate ht]; exact td0_valid)

end EpochZero
